import Mathlib

/-!
Verification development for the embedding-weighted movie recommendation
engine (src/api/groa_ds_api/utils.py, class MovieUtility).

Modelling conventions, stated once here:

* Python/numpy floating point is embedded as `PyFloat`: an exact rational
  for finite values plus the IEEE special values `inf`, `ninf` (negative
  infinity) and `nan`.  Rounding is ignored (finite arithmetic is exact),
  but the special-value propagation rules of IEEE arithmetic — which the
  code relies on, e.g. numpy division by zero yields infinities rather
  than raising — are modelled faithfully.  No claim in play depends on
  rounding.
* The gensim `Word2Vec` model is embedded as `Store`, an association list
  from movie id to vector.  The code loads the model with
  `init_sims(replace=True)` (utils.py line 57), so every stored vector is
  unit-normalised; `clf[i]` is `lookupVec`, raising `KeyError` (modelled
  as `Option.none` at lookup sites that catch it, and as
  `PyErr.keyError` where the code lets it escape).
* `gensim.similar_by_vector(v, topn)` ranks the whole vocabulary by
  cosine similarity and returns the first `topn` (id, score) pairs.
  Because stored vectors are unit-normalised, ranking by the raw dot
  product with the query equals ranking by cosine (positive rescaling of
  the query preserves the order).  gensim implements the descending
  ranking as `argsort` of the negated similarities, which sends NaN keys
  to the END of the ranking; ties are modelled with a stable sort,
  keeping the store order (argpartition tie order is unspecified).
* `np.mean([], axis=0)` emits a RuntimeWarning and evaluates to a
  SCALAR `np.float64` NaN, modelled as `Option.none` (a defined aggregate
  vector is `some`).  numpy broadcasting makes `scalar - vector` and
  `vector - scalar` all-NaN VECTORS of the vector's length, while
  `scalar - scalar` stays a scalar.  gensim `most_similar` accepts an
  ndarray query (even an all-NaN one), but a scalar query is neither a
  string nor an ndarray, so the `for word, weight in positive` loop
  fails to unpack it and raises `TypeError` — the one exception that can
  escape `__predict`, modelled as `PyErr.typeError`.
* Dates fetched alongside movie ids are dropped from the embedded rows:
  `__prep_data` and `__predict` never read them.  A ratings dataframe row
  is `(movie_id, rating)` with the rating an exact rational; the pandas
  `to_dict` ratings dictionary is the same association list, with
  last-occurrence-wins lookup (`rdLookup`).
* Database access and JSON enrichment are external collaborators: the
  embedded `getRecommendations` receives the fetched rows as arguments
  and returns the raw `(movie_id, score)` predictions.
-/

namespace Groa

/-- Embedded IEEE-style scalar: exact rational finite part plus the
special values produced by numpy warnings-not-errors arithmetic. -/
inductive PyFloat where
  | fin : ℚ → PyFloat
  | inf : PyFloat
  | ninf : PyFloat
  | nan : PyFloat
deriving DecidableEq

/-- IEEE addition on embedded floats. -/
def PyFloat.add : PyFloat → PyFloat → PyFloat
  | nan, _ => nan
  | _, nan => nan
  | inf, ninf => nan
  | ninf, inf => nan
  | inf, _ => inf
  | _, inf => inf
  | ninf, _ => ninf
  | _, ninf => ninf
  | fin a, fin b => fin (a + b)

/-- IEEE negation on embedded floats. -/
def PyFloat.neg : PyFloat → PyFloat
  | fin a => fin (-a)
  | inf => ninf
  | ninf => inf
  | nan => nan

/-- IEEE subtraction on embedded floats. -/
def PyFloat.sub (x y : PyFloat) : PyFloat := x.add y.neg

/-- IEEE multiplication on embedded floats. -/
def PyFloat.mul : PyFloat → PyFloat → PyFloat
  | nan, _ => nan
  | _, nan => nan
  | fin a, fin b => fin (a * b)
  | inf, fin b => if b = 0 then nan else if 0 < b then inf else ninf
  | fin a, inf => if a = 0 then nan else if 0 < a then inf else ninf
  | ninf, fin b => if b = 0 then nan else if 0 < b then ninf else inf
  | fin a, ninf => if a = 0 then nan else if 0 < a then ninf else inf
  | inf, inf => inf
  | ninf, ninf => inf
  | inf, ninf => ninf
  | ninf, inf => ninf

/-- IEEE division on embedded floats.  Division of a nonzero finite value
by zero yields a signed infinity and `0 / 0` yields `nan` — numpy emits a
RuntimeWarning in both cases but never raises.  (Rationals carry no
signed zero, so the sign of a zero divisor is taken as positive.) -/
def PyFloat.div : PyFloat → PyFloat → PyFloat
  | nan, _ => nan
  | _, nan => nan
  | fin a, fin b =>
      if b = 0 then (if a = 0 then nan else if 0 < a then inf else ninf)
      else fin (a / b)
  | inf, fin b => if 0 ≤ b then inf else ninf
  | ninf, fin b => if 0 ≤ b then ninf else inf
  | fin _, inf => fin 0
  | fin _, ninf => fin 0
  | inf, inf => nan
  | inf, ninf => nan
  | ninf, inf => nan
  | ninf, ninf => nan

/-- Whether an embedded float is an ordinary finite value. -/
def PyFloat.isFinite : PyFloat → Bool
  | fin _ => true
  | _ => false

/-- Total order used by `np.argmax`: `ninf < finite < inf < nan` — numpy
argmax propagates NaN as the maximum (the first NaN index wins). -/
def PyFloat.npLe : PyFloat → PyFloat → Bool
  | ninf, _ => true
  | _, ninf => false
  | nan, nan => true
  | _, nan => true
  | nan, _ => false
  | inf, inf => true
  | _, inf => true
  | inf, _ => false
  | fin a, fin b => decide (a ≤ b)

/-- Ranking comparison of gensim `matutils.argsort(dists, reverse=True)`:
`rankGe x y` holds when an item with similarity `x` comes at-or-before
one with similarity `y` in the returned descending order.  The reverse
sort is implemented as ascending argsort of the NEGATED keys, and the
negation of NaN is NaN, which ascending numpy sort sends to the end — so
NaN similarities rank LAST: `inf` first, then finite descending, then
`ninf`, then `nan`. -/
def PyFloat.rankGe : PyFloat → PyFloat → Bool
  | nan, nan => true
  | nan, _ => false
  | _, nan => true
  | inf, _ => true
  | _, inf => false
  | ninf, ninf => true
  | ninf, _ => false
  | _, ninf => true
  | fin a, fin b => decide (b ≤ a)

/-- Embedded vector: list of scalars (all store vectors share the model
dimension). -/
abbrev Vec := List PyFloat

/-- Embedded read-only word2vec store: association list from movie id to
its (unit-normalised) vector.  `self.model` in utils.py. -/
abbrev Store := List (String × Vec)

/-- Python exceptions that escape the functions under study: `KeyError`
from `clf[movie_id]` (utils.py line 431), `ValueError` from `np.argmax`
of an empty sequence inside gensim `most_similar_to_given`, and
`TypeError` from gensim `most_similar` tuple-unpacking the scalar
`np.float64` NaN that `np.mean([], axis=0)` yields on an empty pool. -/
inductive PyErr where
  | keyError
  | valueError
  | typeError
deriving DecidableEq

/-- Embedded `clf[i]` / vocabulary lookup: first binding of `i` in the
store, `none` when `i` is outside the vocabulary. -/
def lookupVec (clf : Store) (i : String) : Option Vec :=
  (clf.find? (fun p => decide (p.1 = i))).map Prod.snd

/-- Embedded `ratings_dict[i]`.  The dictionary is built by pandas
`to_dict` over the ratings rows, where a later duplicate key overwrites
an earlier one, hence the last-occurrence-wins lookup. -/
def rdLookup (rd : List (String × ℚ)) (i : String) : Option ℚ :=
  (rd.reverse.find? (fun p => decide (p.1 = i))).map Prod.snd

/-- Embedded rating weight polynomial of `_aggregate_vectors`
(utils.py line 214): `w = r^3 * -0.00143 + r^2 * 0.0533 + r * -0.4695 + 2.1867`,
with the decimal literals as exact rationals. -/
def wPoly (r : ℚ) : ℚ :=
  r ^ 3 * (-143 / 100000) + r ^ 2 * (533 / 10000) + r * (-4695 / 10000) + 21867 / 10000

/-- Scalar multiple of a vector (`m_vec * w`). -/
def vsmul (v : Vec) (c : ℚ) : Vec :=
  v.map (fun x => x.mul (PyFloat.fin c))

/-- Embedded main loop of `_aggregate_vectors` (utils.py lines 203-220)
building `movie_vec`: for each movie, fetch its vector (a `KeyError`
skips it); when `ratings_dict` is non-empty, fetch the rating and scale
by `wPoly` — a `KeyError` on the rating lookup hits `continue`, skipping
the movie entirely. -/
def movieVecLoop (clf : Store) (rd : List (String × ℚ)) : List String → List Vec
  | [] => []
  | i :: rest =>
    match lookupVec clf i with
    | none => movieVecLoop clf rd rest
    | some m_vec =>
      if rd.isEmpty then m_vec :: movieVecLoop clf rd rest
      else
        match rdLookup rd i with
        | none => movieVecLoop clf rd rest
        | some r => vsmul m_vec (wPoly r) :: movieVecLoop clf rd rest

/-- Embedded feedback loop of `_aggregate_vectors` (utils.py lines
221-227): each resolvable feedback movie contributes its vector scaled
by the literal 1.8; misses are skipped.  (The `if feedback_list:` guard
is behaviourally the empty loop, which `filterMap` on `[]` also is.) -/
def feedbackVecs (clf : Store) (feedback_list : List String) : List Vec :=
  feedback_list.filterMap (fun i => (lookupVec clf i).map (fun v => vsmul v (9 / 5)))

/-- Componentwise vector addition. -/
def addVec (v w : Vec) : Vec := List.zipWith PyFloat.add v w

/-- Embedded `np.mean(movie_vec, axis=0)`: componentwise sum divided by
the pool size.  On the empty pool numpy warns and yields NaN, modelled
as `none`. -/
def meanPool : List Vec → Option Vec
  | [] => none
  | v :: vs =>
    some ((vs.foldl addVec v).map (fun x => x.div (PyFloat.fin ((v :: vs).length : ℚ))))

/-- Embedded `_aggregate_vectors(movies, feedback_list)` (utils.py lines
201-228): mean of the rating-weighted movie pool plus the 1.8-weighted
feedback pool. -/
def aggregateVectors (clf : Store) (rd : List (String × ℚ))
    (movies feedback_list : List String) : Option Vec :=
  meanPool (movieVecLoop clf rd movies ++ feedbackVecs clf feedback_list)

/-- Dot product of embedded vectors. -/
def dotVec (v w : Vec) : PyFloat :=
  (List.zipWith PyFloat.mul v w).foldl PyFloat.add (PyFloat.fin 0)

/-- Embedded gensim `similar_by_vector(v, topn)` on a genuine ndarray
query (NaN entries included): rank the whole vocabulary by descending dot
product with the query — NaN similarity keys last, per `rankGe`; ties
keep store order — and return the first `topn` (id, score) pairs.
Stored vectors are unit-normalised, so this order is the cosine order.
A SCALAR NaN query never reaches this function: gensim `most_similar`
raises `TypeError` on it first (see `similarMovies`). -/
def similarByVector (clf : Store) (q : Vec) (topn : Nat) : List (String × PyFloat) :=
  (List.insertionSort (fun a b : String × PyFloat => PyFloat.rankGe a.2 b.2 = true)
    (clf.map (fun p => (p.1, dotVec q p.2)))).take topn

/-- Embedded `_remove_dislikes(bad_movies, good_movies_vec, rejected_list,
harshness)` (utils.py lines 243-249): average the disliked movies through
`_aggregate_vectors` (sharing `ratings_dict`), divide by `harshness`, and
subtract from the input vector.  There is no validity check on
`harshness`.  When exactly one side is the scalar NaN (`none`), numpy
broadcasting yields an all-NaN vector of the other side's length; when
both are scalars the result stays a scalar NaN. -/
def removeDislikes (clf : Store) (rd : List (String × ℚ)) (bad_movies : List String)
    (good_movies_vec : Option Vec) (rejected_list : List String) (harshness : ℚ) :
    Option Vec :=
  match aggregateVectors clf rd bad_movies rejected_list, good_movies_vec with
  | none, none => none
  | none, some g => some (g.map (fun _ => PyFloat.nan))
  | some bad_vec, none => some (bad_vec.map (fun _ => PyFloat.nan))
  | some bad_vec, some g =>
      some (List.zipWith PyFloat.sub g (bad_vec.map (fun x => x.div (PyFloat.fin harshness))))

/-- Embedded suppression guard of `_similar_movies` (utils.py lines
232-233): `if bad_movies: v = _remove_dislikes(bad_movies, v,
harshness=harshness)` — note the call never passes `rejected_list`, so it
stays `[]`. -/
def suppressStep (clf : Store) (rd : List (String × ℚ)) (v : Option Vec)
    (bad_movies : List String) (harshness : ℚ) : Option Vec :=
  if bad_movies.isEmpty then v else removeDislikes clf rd bad_movies v [] harshness

/-- Embedded `_similar_movies(v, n, bad_movies)` (utils.py lines
230-234): optional dislike suppression, then
`similar_by_vector(v, topn=n+1)[1:]` — fetch `n + 1` candidates and
unconditionally drop the first.  When the (possibly suppressed) query is
still the scalar NaN from an empty pool, gensim 3.x `most_similar`
leaves the scalar unwrapped by its `(word, 1.0) if isinstance(word,
(str, ndarray))` comprehension and then fails to tuple-unpack it:
an unhandled `TypeError`. -/
def similarMovies (clf : Store) (rd : List (String × ℚ)) (v : Option Vec) (n : Nat)
    (bad_movies : List String) (harshness : ℚ) :
    Except PyErr (List (String × PyFloat)) :=
  match suppressStep clf rd v bad_movies harshness with
  | none => Except.error PyErr.typeError
  | some q => Except.ok ((similarByVector clf q (n + 1)).drop 1)

/-- Embedded `_remove_dupes(recs, input, bad_movies, hist_list,
feedback_list)` (utils.py lines 236-241).  Returns the pair
(kept result, `dupes`): the function's return value filters out every
rec whose id is in `all_rated = input + bad_movies + hist_list +
feedback_list`, while the nonlocal `dupes` collects the recs whose id is
in `input`. -/
def removeDupes (recs : List (String × PyFloat))
    (input bad_movies hist_list feedback_list : List String) :
    List (String × PyFloat) × List (String × PyFloat) :=
  let all_rated := input ++ bad_movies ++ hist_list ++ feedback_list
  (recs.filter (fun x => !decide (x.1 ∈ all_rated)),
   recs.filter (fun x => decide (x.1 ∈ input)))

/-- Embedded `__predict` (utils.py lines 153-254): aggregate the liked
movies with the liked feedback, search with optional dislike
suppression, then drop known ids.  `val_list` is accepted but never read
by the function body.  Every per-movie `KeyError` is caught and the
numpy mean/division warn instead of raising; the one exception that can
escape is the `TypeError` from searching with a scalar NaN aggregate,
which propagates out of `_similar_movies` uncaught. -/
def predict (clf : Store) (input bad_movies hist_list val_list : List String)
    (rd : List (String × ℚ)) (checked_list rejected_list : List String)
    (n : Nat) (harshness : ℚ) : Except PyErr (List (String × PyFloat)) :=
  match similarMovies clf rd (aggregateVectors clf rd input checked_list) n bad_movies
      harshness with
  | Except.error e => Except.error e
  | Except.ok recs =>
      Except.ok ((removeDupes recs input bad_movies hist_list
        (checked_list ++ rejected_list)).1)

/-- Embedded `get_similar_movies` (utils.py lines 423-436), restricted to
the engine core: `m_vec = clf[movie_id]` is an uncaught `KeyError` when
the id is outside the vocabulary (the code only remarks `# could check if
id is in vocab`); otherwise `similar_by_vector(m_vec, topn=n+1)[1:]`.
The DataFrame/JSON enrichment against the database id_book is an
external collaborator and is not embedded. -/
def getSimilarMovies (clf : Store) (movie_id : String) (n : Nat) :
    Except PyErr (List (String × PyFloat)) :=
  match lookupVec clf movie_id with
  | none => Except.error PyErr.keyError
  | some m_vec => Except.ok ((similarByVector clf m_vec (n + 1)).drop 1)

/-- Embedded gensim similarity between two vocabulary words: dot product
of the stored (unit-normalised) vectors.  The `nan` fallback for an
out-of-vocabulary argument is unreachable from `get_most_similar_title`,
which filters its candidates to the vocabulary first. -/
def simPair (clf : Store) (a b : String) : PyFloat :=
  match lookupVec clf a, lookupVec clf b with
  | some v, some w => dotVec v w
  | _, _ => PyFloat.nan

/-- Embedded `np.argmax` over scored candidates: index (here: label) of
the first maximum, with NaN compared as the largest value, exactly
numpy's behaviour.  `none` only on the empty list, where numpy raises
`ValueError`. -/
def argmaxFirst : List (String × PyFloat) → Option String
  | [] => none
  | x :: xs =>
    some ((xs.foldl (fun best cur => if PyFloat.npLe cur.2 best.2 then best else cur) x).1)

/-- Embedded gensim `most_similar_to_given(entity1, entities_list)`:
`entities_list[argmax([similarity(entity1, e) for e in entities_list])]`,
raising `ValueError` (from `np.argmax` of an empty sequence) when the
candidate list is empty. -/
def mostSimilarToGiven (clf : Store) (entity1 : String) (entities_list : List String) :
    Except PyErr String :=
  match argmaxFirst (entities_list.map (fun j => (j, simPair clf entity1 j))) with
  | none => Except.error PyErr.valueError
  | some m => Except.ok m

/-- Embedded `get_most_similar_title(id, id_list)` (utils.py lines
386-395): return `""` when `id` is outside the vocabulary, otherwise
filter `id_list` to the vocabulary and delegate to
`most_similar_to_given`. -/
def getMostSimilarTitle (clf : Store) (id : String) (id_list : List String) :
    Except PyErr String :=
  match lookupVec clf id with
  | none => Except.ok ""
  | some _ =>
      mostSimilarToGiven clf id (id_list.filter (fun j => (lookupVec clf j).isSome))

/-- Embedded `good_df`/`good_list` of `__prep_data` (utils.py lines
126, 131): ids of rows rated at or above `good_threshold`, in row
order. -/
def goodList (ratings_df : List (String × ℚ)) (good_threshold : ℚ) : List String :=
  (ratings_df.filter (fun p => decide (good_threshold ≤ p.2))).map Prod.fst

/-- Embedded `bad_df`/`bad_list` of `__prep_data` (utils.py lines
127, 132): ids of rows rated at or below `bad_threshold`, in row
order. -/
def badList (ratings_df : List (String × ℚ)) (bad_threshold : ℚ) : List String :=
  (ratings_df.filter (fun p => decide (p.2 ≤ bad_threshold))).map Prod.fst

/-- Embedded `neutral_df`/`neutral_list` of `__prep_data` (utils.py lines
128, 133): ids of rows rated strictly between the two thresholds, in row
order. -/
def neutralList (ratings_df : List (String × ℚ)) (good_threshold bad_threshold : ℚ) :
    List String :=
  (ratings_df.filter (fun p => decide (bad_threshold < p.2 ∧ p.2 < good_threshold))).map
    Prod.fst

/-- Embedded `hist_list` of `__prep_data` (utils.py lines 141-144): when
a watched dataframe is supplied (`is not None` — its contents are never
read), the rows of the RATINGS dataframe whose id is not in
`good_list + bad_list`; otherwise `neutral_list`. -/
def histList (ratings_df : List (String × ℚ)) (watched_df : Option (List String))
    (good_threshold bad_threshold : ℚ) : List String :=
  match watched_df with
  | some _ =>
      (ratings_df.filter (fun p =>
        !decide (p.1 ∈ goodList ratings_df good_threshold ++
          badList ratings_df bad_threshold))).map Prod.fst
  | none => neutralList ratings_df good_threshold bad_threshold

/-- Embedded `val_list` of `__prep_data` (utils.py lines 146-149). -/
def valList (watchlist_df : Option (List String)) : List String :=
  match watchlist_df with
  | some l => l
  | none => []

/-- Embedded `__prep_data` (utils.py lines 90-151): returns
`(good_list, bad_list, hist_list, val_list, ratings_dict)`; the ratings
dictionary is the rows association list itself (see `rdLookup`). -/
def prepData (ratings_df : List (String × ℚ)) (watched_df watchlist_df : Option (List String))
    (good_threshold bad_threshold : ℚ) :
    List String × List String × List String × List String × List (String × ℚ) :=
  (goodList ratings_df good_threshold,
   badList ratings_df bad_threshold,
   histList ratings_df watched_df good_threshold bad_threshold,
   valList watchlist_df,
   ratings_df)

/-- Embedded `get_recommendations` (utils.py lines 438-524), with the
database fetches externalised into arguments (the rows fetched for the
user) and the output taken before the id_book JSON enrichment.  A user
with zero ratings rows short-circuits to the plain string before any of
`__prep_data`/`__predict` runs; `willnotwatchlist` is fetched by the code
but never used.  In this flow the watched and watchlist dataframes exist
(possibly empty) and are never `None`.  The `Sum.inr` branch carries the
fallible prediction (an exception escaping `__predict` propagates out of
`get_recommendations` as well). -/
def getRecommendations (clf : Store) (ratings : List (String × ℚ))
    (watchlist watched willnotwatchlist : List String) (num_recs : Nat)
    (good_threshold bad_threshold harshness : ℚ) :
    Sum String (Except PyErr (List (String × PyFloat))) :=
  if ratings.isEmpty then Sum.inl "User does not have ratings"
  else
    Sum.inr (predict clf
      (goodList ratings good_threshold)
      (badList ratings bad_threshold)
      (histList ratings (some watched) good_threshold bad_threshold)
      (valList (some watchlist))
      ratings [] [] num_recs harshness)

/-! ### Helper lemmas -/

/-- Every element of a `zipWith` comes from a pair of elements of the two
input lists. -/
theorem mem_zipWith_imp {α β γ : Type} (f : α → β → γ) :
    ∀ (l₁ : List α) (l₂ : List β) (c : γ), c ∈ List.zipWith f l₁ l₂ →
      ∃ a b, a ∈ l₁ ∧ b ∈ l₂ ∧ c = f a b := by
  intro l₁
  induction l₁ with
  | nil => intro l₂ c hc; simp at hc
  | cons a l₁ ih =>
    intro l₂ c hc
    cases l₂ with
    | nil => simp at hc
    | cons b l₂ =>
      simp only [List.zipWith_cons_cons, List.mem_cons] at hc
      rcases hc with hc | hc
      · exact ⟨a, b, List.mem_cons_self a l₁, List.mem_cons_self b l₂, hc⟩
      · obtain ⟨x, y, hx, hy, hxy⟩ := ih l₂ c hc
        exact ⟨x, y, List.mem_cons_of_mem _ hx, List.mem_cons_of_mem _ hy, hxy⟩

/-- Dividing any embedded float by (positive) zero never produces a
finite value: numpy yields `inf`, `ninf` or `nan` with a warning. -/
theorem div_fin_zero_not_finite (z : PyFloat) :
    (z.div (PyFloat.fin 0)).isFinite = false := by
  cases z with
  | fin a =>
    simp only [PyFloat.div, if_pos rfl]
    by_cases h0 : a = 0
    · simp [h0, PyFloat.isFinite]
    · by_cases hpos : 0 < a <;> simp [h0, hpos, PyFloat.isFinite]
  | inf => simp [PyFloat.div, PyFloat.isFinite]
  | ninf => simp [PyFloat.div, PyFloat.isFinite]
  | nan => simp [PyFloat.div, PyFloat.isFinite]

/-- Subtracting a non-finite float from anything stays non-finite. -/
theorem sub_not_finite (x y : PyFloat) (hy : y.isFinite = false) :
    (x.sub y).isFinite = false := by
  cases y with
  | fin b => simp [PyFloat.isFinite] at hy
  | inf => cases x <;> simp [PyFloat.sub, PyFloat.neg, PyFloat.add, PyFloat.isFinite]
  | ninf => cases x <;> simp [PyFloat.sub, PyFloat.neg, PyFloat.add, PyFloat.isFinite]
  | nan => cases x <;> simp [PyFloat.sub, PyFloat.neg, PyFloat.add, PyFloat.isFinite]

/-- The running best of the argmax fold is one of the scanned elements. -/
theorem argmax_foldl_mem :
    ∀ (xs : List (String × PyFloat)) (b : String × PyFloat),
      xs.foldl (fun best cur => if PyFloat.npLe cur.2 best.2 then best else cur) b ∈ b :: xs := by
  intro xs
  induction xs with
  | nil => intro b; simp
  | cons x xs ih =>
    intro b
    have h := ih (if PyFloat.npLe x.2 b.2 then b else x)
    simp only [List.foldl_cons]
    rcases List.mem_cons.1 h with h1 | h1
    · by_cases hc : PyFloat.npLe x.2 b.2
      · rw [h1, if_pos hc]; exact List.mem_cons_self _ _
      · rw [h1, if_neg hc]; exact List.mem_cons_of_mem _ (List.mem_cons_self _ _)
    · exact List.mem_cons_of_mem _ (List.mem_cons_of_mem _ h1)

/-! ### Claims -/

/-- C8: for every preference vector `v` and harshness `h`, the
suppression step of `_similar_movies` with an empty disliked list (and
the always-empty disliked feedback, which the call site never passes)
returns `v` unchanged: the `if bad_movies:` guard skips
`_remove_dislikes` entirely. -/
theorem C8_suppress_empty_noop :
    ∀ (clf : Store) (rd : List (String × ℚ)) (v : Option Vec) (harshness : ℚ),
      suppressStep clf rd v [] harshness = v :=
  fun _ _ _ _ => rfl

/-- C10: a user with zero ratings rows makes `get_recommendations`
return the plain string "User does not have ratings"; the result is the
same for every embedding store and every other argument, so no
aggregation, suppression or neighbor search can influence (or be needed
for) the answer. -/
theorem C10_no_ratings_short_circuit :
    ∀ (clf : Store) (watchlist watched willnotwatchlist : List String) (num_recs : Nat)
      (good_threshold bad_threshold harshness : ℚ),
      getRecommendations clf [] watchlist watched willnotwatchlist num_recs
        good_threshold bad_threshold harshness = Sum.inl "User does not have ratings" :=
  fun _ _ _ _ _ _ _ _ => rfl

/-- C6: `get_similar_movies` on an item id absent from the embedding
store fails: `m_vec = clf[movie_id]` raises an uncaught `KeyError`, the
concrete form of the spec's `UnknownItemError`. -/
theorem C6_absent_id_fails :
    ∀ (clf : Store) (movie_id : String) (n : Nat),
      lookupVec clf movie_id = none →
      getSimilarMovies clf movie_id n = Except.error PyErr.keyError := by
  intro clf movie_id n h
  simp [getSimilarMovies, h]

/-- C6 witness: a concrete store and absent id exercising the theorem. -/
theorem C6_absent_id_fails_witness :
    lookupVec [("A", [PyFloat.fin 1])] "Z" = none ∧
      getSimilarMovies [("A", [PyFloat.fin 1])] "Z" 5 = Except.error PyErr.keyError :=
  ⟨by decide, C6_absent_id_fails [("A", [PyFloat.fin 1])] "Z" 5 (by decide)⟩

/-- C4: `_remove_dupes` keeps exactly the results whose id is in none of
the liked input, disliked, history and feedback lists, in the original
(similarity-ranked) order; `dupes` is exactly the results whose id is in
the original liked input. -/
theorem C4_remove_dupes_spec :
    ∀ (recs : List (String × PyFloat)) (input bad_movies hist_list feedback_list : List String),
      (removeDupes recs input bad_movies hist_list feedback_list).1.Sublist recs ∧
      (∀ x, x ∈ (removeDupes recs input bad_movies hist_list feedback_list).1 ↔
        x ∈ recs ∧ ¬x.1 ∈ input ∧ ¬x.1 ∈ bad_movies ∧ ¬x.1 ∈ hist_list ∧
          ¬x.1 ∈ feedback_list) ∧
      (∀ x, x ∈ (removeDupes recs input bad_movies hist_list feedback_list).2 ↔
        x ∈ recs ∧ x.1 ∈ input) := by
  intro recs input bad_movies hist_list feedback_list
  refine ⟨List.filter_sublist recs, fun x => ?_, fun x => ?_⟩
  · simp only [removeDupes, List.mem_filter, List.mem_append, Bool.not_eq_true',
      decide_eq_false_iff_not]
    tauto
  · simp only [removeDupes, List.mem_filter, decide_eq_true_eq]

/-- C1 counterexample: with a non-empty rating map `{B ↦ 5}`, the item
`A` is present in the store but has no rating entry, and the claim says
it is included unweighted.  In fact the inner `except KeyError: continue`
of `_aggregate_vectors` skips it entirely: the pool stays empty and the
aggregate is the NaN mean, not `A`'s vector. -/
theorem C1_counterexample :
    movieVecLoop [("A", [PyFloat.fin 1, PyFloat.fin 0])] [("B", 5)] ["A"] = [] ∧
      aggregateVectors [("A", [PyFloat.fin 1, PyFloat.fin 0])] [("B", 5)] ["A"] [] = none := by
  decide

/-- C1 amended: when the rating map is non-empty, the aggregation pool
contains exactly the (weighted) vectors of the items that resolve in the
store AND have a rating entry — an item with a vector but no rating is
skipped, not included unweighted.  Items are included unweighted exactly
when the rating map is empty; items absent from the store are always
skipped. -/
theorem C1_amended :
    ∀ (clf : Store) (rd : List (String × ℚ)) (movies : List String),
      (rd ≠ [] → movieVecLoop clf rd movies =
        movies.filterMap (fun i =>
          match lookupVec clf i, rdLookup rd i with
          | some v, some r => some (vsmul v (wPoly r))
          | _, _ => none)) ∧
      (rd = [] → movieVecLoop clf rd movies = movies.filterMap (lookupVec clf)) := by
  intro clf rd movies
  constructor
  · intro hrd
    have hne : rd.isEmpty = false := by
      cases rd with
      | nil => exact absurd rfl hrd
      | cons p l => rfl
    induction movies with
    | nil => rfl
    | cons i rest ih =>
      simp only [movieVecLoop, List.filterMap_cons, hne]
      cases hv : lookupVec clf i with
      | none => simpa using ih
      | some m_vec =>
        simp only [Bool.false_eq_true, if_false]
        cases hr : rdLookup rd i with
        | none => simpa using ih
        | some r => simpa using ih
  · intro hrd
    subst hrd
    induction movies with
    | nil => rfl
    | cons i rest ih =>
      simp only [movieVecLoop, List.filterMap_cons]
      cases hv : lookupVec clf i with
      | none => simpa using ih
      | some m_vec => simpa [List.isEmpty_nil] using ih

/-- C1 witness: concrete store and non-empty rating map exercising the
amended characterization (the rated item `A` is kept weighted, the
unrated `B` is dropped). -/
theorem C1_amended_witness :
    movieVecLoop [("A", [PyFloat.fin 2])] [("A", 5)] ["A", "B"] =
      List.filterMap (fun i =>
        match lookupVec [("A", [PyFloat.fin 2])] i, rdLookup [("A", 5)] i with
        | some v, some r => some (vsmul v (wPoly r))
        | _, _ => none) ["A", "B"] :=
  (C1_amended [("A", [PyFloat.fin 2])] [("A", 5)] ["A", "B"]).1 (by decide)

/-- C2 counterexample: no `EmptyAggregationError` exists in the code.
With the liked list empty and no feedback (and no dislikes),
`_aggregate_vectors` returns `np.mean([], axis=0)` — a SCALAR NaN with a
RuntimeWarning, not an exception — so aggregation produces a value
rather than failing; `__predict` then hands that scalar to gensim
`similar_by_vector`, whose `most_similar` fails to tuple-unpack it, and
the call dies with an unhandled `TypeError`, not an
`EmptyAggregationError`. -/
theorem C2_counterexample :
    aggregateVectors [("A", [PyFloat.fin 1, PyFloat.fin 0]),
      ("B", [PyFloat.fin 0, PyFloat.fin 1])] [] [] [] = none ∧
    predict [("A", [PyFloat.fin 1, PyFloat.fin 0]), ("B", [PyFloat.fin 0, PyFloat.fin 1])]
      [] [] [] [] [] [] [] 50 1 = Except.error PyErr.typeError :=
  ⟨rfl, rfl⟩

/-- C2 amended: an empty combined pool makes `_aggregate_vectors` return
the scalar NaN `np.mean([])` instead of raising — the code defines no
`EmptyAggregationError` — and `__predict` called with an empty liked
list and no feedback (and an empty disliked list, which leaves the
scalar un-broadcast) does fail, but with gensim's accidental `TypeError`
while tuple-unpacking the scalar NaN query inside the similarity search,
not with an aggregation error. -/
theorem C2_amended :
    (∀ (clf : Store) (rd : List (String × ℚ)) (movies feedback_list : List String),
      (∀ i ∈ movies, lookupVec clf i = none ∨ (rd ≠ [] ∧ rdLookup rd i = none)) →
      (∀ i ∈ feedback_list, lookupVec clf i = none) →
      aggregateVectors clf rd movies feedback_list = none) ∧
    (∀ (clf : Store) (rd : List (String × ℚ))
      (hist_list val_list rejected_list : List String) (n : Nat) (harshness : ℚ),
      predict clf [] [] hist_list val_list rd [] rejected_list n harshness =
        Except.error PyErr.typeError) := by
  constructor
  · intro clf rd movies feedback_list hm hf
    have hloop : movieVecLoop clf rd movies = [] := by
      induction movies with
      | nil => rfl
      | cons i rest ih =>
        have hrest : movieVecLoop clf rd rest = [] :=
          ih (fun j hj => hm j (List.mem_cons_of_mem _ hj))
        rcases hm i (List.mem_cons_self _ _) with hv | ⟨hrd, hr⟩
        · simp [movieVecLoop, hv, hrest]
        · have hne : rd.isEmpty = false := by
            cases rd with
            | nil => exact absurd rfl hrd
            | cons p l => rfl
          cases hv : lookupVec clf i with
          | none => simp [movieVecLoop, hv, hrest]
          | some m_vec => simp [movieVecLoop, hv, hne, hr, hrest]
    have hfb : feedbackVecs clf feedback_list = [] := by
      rw [feedbackVecs, List.filterMap_eq_nil_iff]
      intro i hi
      rw [hf i hi]
      rfl
    rw [aggregateVectors, hloop, hfb]
    rfl
  · intro clf rd hist_list val_list rejected_list n harshness
    rfl

/-- C2 witness: a concrete empty-pool aggregation returns the scalar-NaN
marker, and a concrete empty-liked `__predict` call fails with the
`TypeError`. -/
theorem C2_amended_witness :
    aggregateVectors [("A", [PyFloat.fin 1])] [("B", 5)] ["A", "Q"] ["R"] = none ∧
      predict [("A", [PyFloat.fin 1])] [] [] [] [] [("B", 5)] [] [] 10 1 =
        Except.error PyErr.typeError :=
  ⟨C2_amended.1 [("A", [PyFloat.fin 1])] [("B", 5)] ["A", "Q"] ["R"]
      (by decide) (by decide),
   C2_amended.2 [("A", [PyFloat.fin 1])] [("B", 5)] [] [] [] 10 1⟩

/-- C3 counterexample: the code defines no `InvalidParameterError` and
`_remove_dislikes` performs no parameter check.  With a non-empty
disliked list and `harshness = 0`, numpy divides by zero with only a
RuntimeWarning: the call returns a vector of non-finite components
(`1 - (-1)/0 = +∞`, `0 - 0/0 = NaN`) instead of failing. -/
theorem C3_counterexample :
    removeDislikes [("C", [PyFloat.fin (-1), PyFloat.fin 0])] [] ["C"]
      (some [PyFloat.fin 1, PyFloat.fin 0]) [] 0 =
      some [PyFloat.inf, PyFloat.nan] := by
  with_unfolding_all decide

/-- C3 amended: `_remove_dislikes` with `harshness = 0` is not rejected;
it runs the division and returns a vector silently.  Whenever it returns
a defined vector, every component of that vector is non-finite (`+∞`,
`-∞` or NaN): division by zero is silently tolerated, never raised. -/
theorem C3_amended :
    ∀ (clf : Store) (rd : List (String × ℚ)) (bad_movies : List String) (good : Vec)
      (rejected_list : List String) (r : Vec),
      removeDislikes clf rd bad_movies (some good) rejected_list 0 = some r →
      ∀ c ∈ r, c.isFinite = false := by
  intro clf rd bad_movies good rejected_list r hr c hc
  unfold removeDislikes at hr
  split at hr
  · exact absurd hr (by simp)
  · rename_i g heq1 heq2
    injection hr with hr2
    rw [← hr2] at hc
    obtain ⟨z, _, hz⟩ := List.mem_map.1 hc
    rw [← hz]
    rfl
  · rename_i bad_vec heq1 heq2
    exact absurd heq2 (by simp)
  · rename_i bad_vec g heq1 heq2
    injection hr with hr2
    rw [← hr2] at hc
    obtain ⟨a, b, _, hb, hab⟩ := mem_zipWith_imp PyFloat.sub _ _ c hc
    obtain ⟨z, _, hz⟩ := List.mem_map.1 hb
    rw [hab, ← hz]
    exact sub_not_finite a _ (div_fin_zero_not_finite z)

/-- C3 witness: the concrete division-by-zero result from the
counterexample store has only non-finite components. -/
theorem C3_amended_witness :
    PyFloat.isFinite PyFloat.inf = false ∧ PyFloat.isFinite PyFloat.nan = false :=
  ⟨C3_amended [("C", [PyFloat.fin (-1), PyFloat.fin 0])] [] ["C"]
      [PyFloat.fin 1, PyFloat.fin 0] [] [PyFloat.inf, PyFloat.nan]
      (by with_unfolding_all decide) PyFloat.inf (by decide),
   C3_amended [("C", [PyFloat.fin (-1), PyFloat.fin 0])] [] ["C"]
      [PyFloat.fin 1, PyFloat.fin 0] [] [PyFloat.inf, PyFloat.nan]
      (by with_unfolding_all decide) PyFloat.nan (by decide)⟩

/-- The ids of the gensim ranking stay distinct when the store ids are
distinct: the ranking is a permutation of the scored vocabulary cut to
`topn`. -/
theorem similarByVector_fst_nodup (clf : Store) (q : Vec) (topn : Nat)
    (hnd : (clf.map Prod.fst).Nodup) :
    ((similarByVector clf q topn).map Prod.fst).Nodup := by
  have hperm := (List.perm_insertionSort
      (fun a b : String × PyFloat => PyFloat.rankGe a.2 b.2 = true)
      (clf.map (fun p => (p.1, dotVec q p.2)))).map Prod.fst
  have hscored : (clf.map (fun p => (p.1, dotVec q p.2))).map Prod.fst
      = clf.map Prod.fst := by
    simp [List.map_map, Function.comp]
  rw [hscored] at hperm
  have hsorted := hperm.nodup_iff.mpr hnd
  rw [similarByVector, List.map_take]
  exact List.Sublist.nodup (List.take_sublist _ _) hsorted

/-- The gensim ranking returns at most `topn` candidates. -/
theorem similarByVector_length_le (clf : Store) (q : Vec) (topn : Nat) :
    (similarByVector clf q topn).length ≤ topn := by
  rw [similarByVector, List.length_take]
  exact min_le_left _ _

/-- Dropping the first of at most `n + 1` ranked candidates leaves at
most `n`, with distinct ids. -/
theorem drop_first_spec (clf : Store) (q : Vec) (n : Nat)
    (hnd : (clf.map Prod.fst).Nodup) :
    ((similarByVector clf q (n + 1)).drop 1).length ≤ n ∧
      (((similarByVector clf q (n + 1)).drop 1).map Prod.fst).Nodup := by
  constructor
  · rw [List.length_drop]
    have h1 := similarByVector_length_le clf q (n + 1)
    omega
  · rw [List.map_drop]
    exact List.Sublist.nodup (List.drop_sublist _ _)
      (similarByVector_fst_nodup clf q (n + 1) hnd)

/-- C5: both `_similar_movies` and `get_similar_movies` fetch `n + 1`
candidates and unconditionally drop the first, so (over a store with
distinct ids, as a gensim vocabulary always has) whenever they return a
result list it has at most `n` entries and never a duplicate id. -/
theorem C5_top_n_bound :
    ∀ (clf : Store) (rd : List (String × ℚ)) (q : Option Vec) (n : Nat)
      (bad_movies : List String) (harshness : ℚ) (movie_id : String),
      (clf.map Prod.fst).Nodup →
      (∀ rs, similarMovies clf rd q n bad_movies harshness = Except.ok rs →
        rs.length ≤ n ∧ (rs.map Prod.fst).Nodup) ∧
      (∀ rs, getSimilarMovies clf movie_id n = Except.ok rs →
        rs.length ≤ n ∧ (rs.map Prod.fst).Nodup) := by
  intro clf rd q n bad_movies harshness movie_id hnd
  constructor
  · intro rs hrs
    unfold similarMovies at hrs
    split at hrs
    · exact absurd hrs (by simp)
    · injection hrs with hrs2
      rw [← hrs2]
      exact drop_first_spec clf _ n hnd
  · intro rs hrs
    unfold getSimilarMovies at hrs
    split at hrs
    · exact absurd hrs (by simp)
    · injection hrs with hrs2
      rw [← hrs2]
      exact drop_first_spec clf _ n hnd

/-- C5 witness: concrete two-item store exercising the bound (the query
item `A` itself tops the ranking and is dropped, leaving only `B`). -/
theorem C5_top_n_bound_witness :
    (([("A", [PyFloat.fin 1, PyFloat.fin 0]), ("B", [PyFloat.fin 0, PyFloat.fin 1])] :
        Store).map Prod.fst).Nodup ∧
      ([("B", PyFloat.fin 0)] : List (String × PyFloat)).length ≤ 1 :=
  ⟨by decide,
   ((C5_top_n_bound
      [("A", [PyFloat.fin 1, PyFloat.fin 0]), ("B", [PyFloat.fin 0, PyFloat.fin 1])]
      [] (some [PyFloat.fin 1, PyFloat.fin 0]) 1 [] 1 "A" (by decide)).1
      [("B", PyFloat.fin 0)] (by with_unfolding_all rfl)).1⟩

/-- C7 counterexample: the "no match" fallback only covers an absent
`id`.  When `id` is in the vocabulary but no candidate survives the
vocabulary filter, gensim `most_similar_to_given` calls `np.argmax` on
an empty sequence, which raises `ValueError` — the lookup fails instead
of returning a no-match result. -/
theorem C7_counterexample :
    getMostSimilarTitle [("A", [PyFloat.fin 1])] "A" ["Z"] =
      Except.error PyErr.valueError := by
  rfl

/-- C7 amended: `get_most_similar_title` restricts the candidates to the
vocabulary and returns `""` (no match) when `id` itself is absent from
the store; but when the filtered candidate set is empty it fails with a
`ValueError` rather than returning a no-match result.  When the filtered
set is non-empty it returns one of the supplied candidates, necessarily
present in the vocabulary. -/
theorem C7_amended :
    ∀ (clf : Store) (id : String) (id_list : List String),
      (lookupVec clf id = none → getMostSimilarTitle clf id id_list = Except.ok "") ∧
      (∀ v, lookupVec clf id = some v →
        id_list.filter (fun j => (lookupVec clf j).isSome) = [] →
        getMostSimilarTitle clf id id_list = Except.error PyErr.valueError) ∧
      (∀ v, lookupVec clf id = some v →
        id_list.filter (fun j => (lookupVec clf j).isSome) ≠ [] →
        ∃ m, getMostSimilarTitle clf id id_list = Except.ok m ∧ m ∈ id_list ∧
          (lookupVec clf m).isSome = true) := by
  intro clf id id_list
  refine ⟨fun h => ?_, fun v hv hfilt => ?_, fun v hv hfilt => ?_⟩
  · unfold getMostSimilarTitle
    simp only [h]
  · unfold getMostSimilarTitle
    simp only [hv, hfilt]
    rfl
  · cases hf : id_list.filter (fun j => (lookupVec clf j).isSome) with
    | nil => exact absurd hf hfilt
    | cons f fs =>
      have hg : getMostSimilarTitle clf id id_list = mostSimilarToGiven clf id (f :: fs) := by
        unfold getMostSimilarTitle
        simp only [hv, hf]
      rw [hg, mostSimilarToGiven]
      simp only [List.map_cons, argmaxFirst]
      refine ⟨_, rfl, ?_⟩
      have hmem := argmax_foldl_mem (fs.map (fun j => (j, simPair clf id j)))
        (f, simPair clf id f)
      have hmem2 : (fs.map (fun j => (j, simPair clf id j))).foldl
          (fun best cur => if PyFloat.npLe cur.2 best.2 then best else cur)
          (f, simPair clf id f) ∈ (f :: fs).map (fun j => (j, simPair clf id j)) := by
        simpa using hmem
      obtain ⟨j, hj, hjeq⟩ := List.mem_map.1 hmem2
      have hj2 : j ∈ id_list.filter (fun j => (lookupVec clf j).isSome) := by
        rw [hf]
        exact hj
      have hj3 := List.mem_filter.1 hj2
      rw [← hjeq]
      exact ⟨hj3.1, hj3.2⟩

/-- C7 witness: a concrete no-match return for an absent id, and a
concrete successful constrained lookup landing inside the candidate
list. -/
theorem C7_amended_witness :
    getMostSimilarTitle [("A", [PyFloat.fin 1]), ("B", [PyFloat.fin 1])] "Z" ["A"] =
        Except.ok "" ∧
      ∃ m, getMostSimilarTitle [("A", [PyFloat.fin 1]), ("B", [PyFloat.fin 1])] "A"
          ["B", "Q"] = Except.ok m ∧ m ∈ ["B", "Q"] ∧
        (lookupVec [("A", [PyFloat.fin 1]), ("B", [PyFloat.fin 1])] m).isSome = true :=
  ⟨(C7_amended [("A", [PyFloat.fin 1]), ("B", [PyFloat.fin 1])] "Z" ["A"]).1 (by decide),
   (C7_amended [("A", [PyFloat.fin 1]), ("B", [PyFloat.fin 1])] "A" ["B", "Q"]).2.2
      [PyFloat.fin 1] (by decide) (by decide)⟩

/-- C9 counterexample: with a duplicated movie id in the ratings rows
(`A` rated both 5 and 3.5, thresholds 4/3), the supplied-watched-data
branch of `__prep_data` produces a history list different from the
`None` branch: `["A"]` versus `[]`.  The history list is therefore
neither always the strictly-between list nor invariant under swapping
`None` for data. -/
theorem C9_counterexample :
    histList [("A", 5), ("A", 7 / 2)] (some []) 4 3 = [] ∧
      histList [("A", 5), ("A", 7 / 2)] none 4 3 = ["A"] := by
  with_unfolding_all decide

/-- C9 amended: when the ratings rows carry distinct movie ids (the
common case), the history list equals the list of rated movies with
rating strictly between the two thresholds, for EVERY value of the
watched dataframe — in particular the watched contents (which the code
never reads) cannot influence it. -/
theorem C9_amended :
    ∀ (ratings_df : List (String × ℚ)) (good_threshold bad_threshold : ℚ),
      (ratings_df.map Prod.fst).Nodup →
      ∀ watched_df, histList ratings_df watched_df good_threshold bad_threshold
        = neutralList ratings_df good_threshold bad_threshold := by
  intro rows gt bt hnd watched
  cases watched with
  | none => rfl
  | some w =>
    rw [histList, neutralList]
    congr 1
    apply List.filter_congr
    intro p hp
    have hmemg : p.1 ∈ goodList rows gt ↔ gt ≤ p.2 := by
      constructor
      · intro h
        obtain ⟨q, hq, hq1⟩ := List.mem_map.1 h
        have hq2 := List.mem_filter.1 hq
        have hqp : q = p := List.inj_on_of_nodup_map hnd hq2.1 hp hq1
        have := hq2.2
        rw [hqp] at this
        exact of_decide_eq_true this
      · intro h
        exact List.mem_map_of_mem Prod.fst
          (List.mem_filter.2 ⟨hp, decide_eq_true h⟩)
    have hmemb : p.1 ∈ badList rows bt ↔ p.2 ≤ bt := by
      constructor
      · intro h
        obtain ⟨q, hq, hq1⟩ := List.mem_map.1 h
        have hq2 := List.mem_filter.1 hq
        have hqp : q = p := List.inj_on_of_nodup_map hnd hq2.1 hp hq1
        have := hq2.2
        rw [hqp] at this
        exact of_decide_eq_true this
      · intro h
        exact List.mem_map_of_mem Prod.fst
          (List.mem_filter.2 ⟨hp, decide_eq_true h⟩)
    have hiff : ¬(p.1 ∈ goodList rows gt ++ badList rows bt) ↔
        (bt < p.2 ∧ p.2 < gt) := by
      rw [List.mem_append, hmemg, hmemb]
      simp only [not_or, not_le]
      exact and_comm
    calc (!decide (p.1 ∈ goodList rows gt ++ badList rows bt))
        = decide (¬(p.1 ∈ goodList rows gt ++ badList rows bt)) := decide_not.symm
      _ = decide (bt < p.2 ∧ p.2 < gt) := decide_eq_decide.mpr hiff

/-- C9 witness: with distinct movie ids the two branches agree. -/
theorem C9_amended_witness :
    histList [("A", 5), ("B", 1)] (some ["X"]) 4 3 =
      neutralList [("A", 5), ("B", 1)] 4 3 :=
  C9_amended [("A", 5), ("B", 1)] 4 3 (by decide) (some ["X"])

end Groa
